import Mathlib

set_option linter.unusedVariables false

/-!
Verification of the FastWebFramework repository specification.

Shallow embedding of the repository's own code: the admin-auth middleware
(src/admin/middleware.py), the database session manager (src/database/session.py),
the generic CRUD manager (src/database/manager.py), the user model and schemes
(src/auth/model.py, src/auth/schemes.py), the admin panel view (src/admin/models.py),
and the application factory (src/main.py).

Effectful Python code is embedded as pure functions parametrised by the outcomes
of the external calls they make (database calls, outbound HTTP), returning the
produced result together with a trace of the observable events (outbound calls,
commits/rollbacks, log lines).
-/

namespace FastWeb

/-! ## HTTP exceptions (src/exceptions.py) -/

/-- A FastAPI HTTPException: a status code and a detail string. -/
structure HTTPException where
  status_code : Nat
  detail : String
  deriving Repr, DecidableEq

/-- src/exceptions.py: HttpServerException = HTTPException(500, 'Ошибка сервера'). -/
def HttpServerException : HTTPException := ⟨500, "Ошибка сервера"⟩

/-- src/exceptions.py: HttpForbiddenException = HTTPException(403, 'Доступ запрещен'). -/
def HttpForbiddenException : HTTPException := ⟨403, "Доступ запрещен"⟩

/-! ## Admin auth middleware (src/admin/middleware.py) -/

/-- The parts of a starlette Request the middleware reads: the URL path,
dict(request.headers) and dict(request.cookies). -/
structure HttpRequest where
  path : String
  headers : List (String × String)
  cookies : List (String × String)
  deriving Repr, DecidableEq

/-- Outcome of the outbound `client.get` in dispatch: either a transport error
(httpx.RequestError) or a response, of which the middleware reads the status
code and the "detail" field of the JSON body. -/
inductive OutboundResult where
  | transportError
  | response (status : Nat) (detail : Option String)
  deriving Repr, DecidableEq

/-- An outbound HTTP GET issued by the middleware: target URL, headers, cookies. -/
structure OutboundCall where
  url : String
  headers : List (String × String)
  cookies : List (String × String)
  deriving Repr, DecidableEq

/-- What dispatch does with the request in the end. -/
inductive DispatchResult where
  /-- `return await call_next(request)`: the request handed to the downstream handler. -/
  | downstream (req : HttpRequest)
  /-- `return JSONResponse(status_code=..., content={"detail": ...})`. -/
  | jsonResponse (status : Nat) (detail : Option String)
  /-- an HTTPException propagating out of dispatch (`raise HttpServerException`). -/
  | raised (e : HTTPException)
  deriving Repr, DecidableEq

/-- Python str.startswith over Lean strings: the first string's character
list begins with the second's. -/
def pyStartsWith (s p : String) : Bool :=
  s.data.take p.data.length == p.data

/-- AdminAuthMiddleware.dispatch (src/admin/middleware.py lines 33-64).
`baseUrl` is config.BASE_URL; the outbound GET goes to
f"{config.BASE_URL}auth/protected" with the request's headers and cookies.
`outbound` is the outcome of that single `client.get`.  Returns the dispatch
result together with the list of outbound calls issued.

Source structure: if the path starts with "/admin", one GET is sent; a
non-200 status raises HTTPException(status, detail) which the
`except HTTPException` clause turns into a JSONResponse; an httpx.RequestError
raises HttpServerException, which is raised inside the `except` handler and
therefore propagates (it is not re-caught by the sibling clause).  Otherwise
`call_next(request)` is returned. -/
def dispatch (baseUrl : String) (req : HttpRequest) (outbound : OutboundResult) :
    DispatchResult × List OutboundCall :=
  if pyStartsWith req.path "/admin" then
    let call : OutboundCall := ⟨baseUrl ++ "auth/protected", req.headers, req.cookies⟩
    match outbound with
    | .transportError => (.raised HttpServerException, [call])
    | .response status detail =>
        if status ≠ 200 then
          (.jsonResponse status detail, [call])
        else
          (.downstream req, [call])
  else
    (.downstream req, [])

/-! ## Database session manager (src/database/session.py) -/

/-- Observable session events: the `SET TRANSACTION ISOLATION LEVEL` statement,
session.commit(), session.rollback(), session.close(). -/
inductive DbEvent where
  | setIsolation (level : String)
  | commit
  | rollback
  | close
  deriving Repr, DecidableEq

/-- DatabaseSessionManager.session (src/database/session.py lines 64-117),
run to completion on one use of the context manager.

The effectful steps are parametrised by their outcomes:
`setResult` is the outcome of the `SET TRANSACTION ISOLATION LEVEL` execute
(consulted only when `isolation` is `some`), `body` is the outcome of the code
run at the `yield` point, and `commitResult` is the outcome of
`session.commit()` (consulted only when the commit flag is set and the body
succeeded).  Any exception from these steps is caught by the `except` clause,
which rolls back and re-raises; the `finally` clause closes the session.
Returns the overall outcome and the ordered event trace. -/
def sessionRun {E A : Type} (isolation : Option String) (commitFlag : Bool)
    (setResult : Except E Unit) (body : Except E A) (commitResult : Except E Unit) :
    Except E A × List DbEvent :=
  match isolation with
  | some lvl =>
      match setResult with
      | .error e => (.error e, [.rollback, .close])
      | .ok _ =>
          match body with
          | .error e => (.error e, [.setIsolation lvl, .rollback, .close])
          | .ok a =>
              if commitFlag then
                match commitResult with
                | .ok _ => (.ok a, [.setIsolation lvl, .commit, .close])
                | .error e => (.error e, [.setIsolation lvl, .commit, .rollback, .close])
              else
                (.ok a, [.setIsolation lvl, .close])
  | none =>
      match body with
      | .error e => (.error e, [.rollback, .close])
      | .ok a =>
          if commitFlag then
            match commitResult with
            | .ok _ => (.ok a, [.commit, .close])
            | .error e => (.error e, [.commit, .rollback, .close])
          else
            (.ok a, [.close])

/-- The wrapper produced by DatabaseSessionManager.connection
(src/database/session.py lines 150-196), run on one call of the decorated
method.  Structurally identical to `sessionRun`: the decorated method's
outcome plays the role of the body (`result = await method(...)`), a commit is
attempted only when the commit flag is set and the method returned, any
exception triggers rollback and re-raise, and the `finally` clause closes the
session. -/
def connectionRun {E A : Type} (isolation : Option String) (commitFlag : Bool)
    (setResult : Except E Unit) (methodResult : Except E A) (commitResult : Except E Unit) :
    Except E A × List DbEvent :=
  match isolation with
  | some lvl =>
      match setResult with
      | .error e => (.error e, [.rollback, .close])
      | .ok _ =>
          match methodResult with
          | .error e => (.error e, [.setIsolation lvl, .rollback, .close])
          | .ok a =>
              if commitFlag then
                match commitResult with
                | .ok _ => (.ok a, [.setIsolation lvl, .commit, .close])
                | .error e => (.error e, [.setIsolation lvl, .commit, .rollback, .close])
              else
                (.ok a, [.setIsolation lvl, .close])
  | none =>
      match methodResult with
      | .error e => (.error e, [.rollback, .close])
      | .ok a =>
          if commitFlag then
            match commitResult with
            | .ok _ => (.ok a, [.commit, .close])
            | .error e => (.error e, [.commit, .rollback, .close])
          else
            (.ok a, [.close])

/-! ## Generic CRUD manager (src/database/manager.py)

Each method is embedded as a function of the outcomes of the database calls it
makes inside its `try` block, returning the method's outcome together with the
trace of log lines (an initial `logger.info` where the source has one, an
`logger.info` on success, a `logger.error` in the `except SQLAlchemyError`
clause).  The query contents live in the oracles; the control flow is the
source's. -/

/-- The sqlalchemy.exc.SQLAlchemyError caught by every CRUD method. -/
structure SQLAlchemyError where
  msg : String
  deriving Repr, DecidableEq

/-- The Python exceptions update_all can raise: a SQLAlchemyError (caught,
logged and re-raised) or a TypeError (raised when keyword arguments are passed
to `where()`, and caught by nothing in the method). -/
inductive PyError where
  | sql (e : SQLAlchemyError)
  | typeError (msg : String)
  deriving Repr, DecidableEq

/-- A loguru log line: its level is all the claims consult. -/
inductive LogEvent where
  | info
  | error
  deriving Repr, DecidableEq

/-- A statement actually sent to the database session. -/
inductive DbAction where
  | execute
  | flush
  deriving Repr, DecidableEq

namespace BaseManager

/-- BaseManager.add: logs, then inside `try` constructs the object, adds it
and flushes (outcome `flushResult`); on SQLAlchemyError logs an error and
re-raises; otherwise returns the new object. -/
def add {A : Type} (newObject : A) (flushResult : Except SQLAlchemyError Unit) :
    Except SQLAlchemyError A × List LogEvent :=
  match flushResult with
  | .ok _ => (.ok newObject, [.info, .info])
  | .error e => (.error e, [.info, .error])

/-- BaseManager.add_all: same shape as add, over a list of objects. -/
def add_all {A : Type} (newObjects : List A) (flushResult : Except SQLAlchemyError Unit) :
    Except SQLAlchemyError (List A) × List LogEvent :=
  match flushResult with
  | .ok _ => (.ok newObjects, [.info, .info])
  | .error e => (.error e, [.info, .error])

/-- BaseManager.find_by_id (src/database/manager.py lines 98-118): inside
`try`, `session.get` (outcome `getResult`, `none` when no row matches) and an
info log; on SQLAlchemyError an error log and a re-raise of the same
exception.  The found object (or None) is returned as is. -/
def find_by_id {A : Type} (getResult : Except SQLAlchemyError (Option A)) :
    Except SQLAlchemyError (Option A) × List LogEvent :=
  match getResult with
  | .ok obj => (.ok obj, [.info])
  | .error e => (.error e, [.error])

/-- BaseManager.find_one_by: an info log, then inside `try` the select is
executed and scalar_one_or_none taken (outcome `execResult`). -/
def find_one_by {A : Type} (filters : List (String × String))
    (execResult : Except SQLAlchemyError (Option A)) :
    Except SQLAlchemyError (Option A) × List LogEvent :=
  match execResult with
  | .ok obj => (.ok obj, [.info, .info])
  | .error e => (.error e, [.info, .error])

/-- BaseManager.find_all: as find_one_by, returning all scalars. -/
def find_all {A : Type} (filters : List (String × String))
    (execResult : Except SQLAlchemyError (List A)) :
    Except SQLAlchemyError (List A) × List LogEvent :=
  match execResult with
  | .ok objs => (.ok objs, [.info, .info])
  | .error e => (.error e, [.info, .error])

/-- BaseManager.update_by_id: an info log, then inside `try` the
`session.get` (outcome `getResult`), the attribute assignments (pure), and the
flush (outcome `flushResult`). -/
def update_by_id {A : Type} (getResult : Except SQLAlchemyError (Option A))
    (flushResult : Except SQLAlchemyError Unit) :
    Except SQLAlchemyError Unit × List LogEvent :=
  match getResult with
  | .error e => (.error e, [.info, .error])
  | .ok _ =>
      match flushResult with
      | .ok _ => (.ok (), [.info, .info])
      | .error e => (.error e, [.info, .error])

/-- The Python call `update(model).where(**filters_dict)` in update_all:
`where` accepts only positional expressions (`def where(self, *whereclause)`),
so passing a non-empty keyword dict raises TypeError before any statement is
built; an empty dict expands to a no-argument call, which is accepted. -/
def whereKwargs (filters : List (String × String)) : Except PyError Unit :=
  if filters.isEmpty then .ok ()
  else .error (.typeError "where() got an unexpected keyword argument")

/-- BaseManager.update_all (src/database/manager.py lines 202-231): an info
log, then inside `try` the query construction (which raises TypeError on a
non-empty filter dict, caught by nothing since the except clause catches only
SQLAlchemyError), the execute (outcome `execResult`) and the flush (outcome
`flushResult`).  Also returns the trace of statements sent to the session. -/
def update_all (filters : List (String × String))
    (execResult : Except SQLAlchemyError Nat)
    (flushResult : Except SQLAlchemyError Unit) :
    Except PyError Unit × List DbAction × List LogEvent :=
  match whereKwargs filters with
  | .error e => (.error e, [], [.info])
  | .ok _ =>
      match execResult with
      | .error e => (.error (.sql e), [.execute], [.info, .error])
      | .ok _ =>
          match flushResult with
          | .error e => (.error (.sql e), [.execute, .flush], [.info, .error])
          | .ok _ => (.ok (), [.execute, .flush], [.info, .info])

/-- BaseManager.delete_by_id: an info log, then inside `try` the
`session.get` (outcome `getResult`) and the delete+flush (outcome
`flushResult`). -/
def delete_by_id {A : Type} (getResult : Except SQLAlchemyError (Option A))
    (flushResult : Except SQLAlchemyError Unit) :
    Except SQLAlchemyError Unit × List LogEvent :=
  match getResult with
  | .error e => (.error e, [.info, .error])
  | .ok _ =>
      match flushResult with
      | .ok _ => (.ok (), [.info, .info])
      | .error e => (.error e, [.info, .error])

/-- BaseManager.delete_all: an info log, then inside `try` the delete query
built with filter_by (which accepts keywords), its execute (outcome
`execResult`, the rowcount) and the flush (outcome `flushResult`). -/
def delete_all (filters : List (String × String))
    (execResult : Except SQLAlchemyError Nat)
    (flushResult : Except SQLAlchemyError Unit) :
    Except SQLAlchemyError Unit × List LogEvent :=
  match execResult with
  | .error e => (.error e, [.info, .error])
  | .ok _ =>
      match flushResult with
      | .ok _ => (.ok (), [.info, .info])
      | .error e => (.error e, [.info, .error])

/-- BaseManager.count: an info log, then inside `try` the count select is
executed and its scalar taken (outcome `execResult`). -/
def count (filters : List (String × String))
    (execResult : Except SQLAlchemyError Nat) :
    Except SQLAlchemyError Nat × List LogEvent :=
  match execResult with
  | .ok n => (.ok n, [.info, .info])
  | .error e => (.error e, [.info, .error])

end BaseManager

/-! ## User model and registration schemes (src/auth/model.py, src/auth/schemes.py) -/

/-- The declared properties of an ORM mapped column. -/
structure ColumnSpec where
  maxLength : Option Nat
  nullable : Bool
  unique : Bool
  deriving Repr, DecidableEq

/-- src/auth/model.py: the User.username column is
`mapped_column(String(20), nullable=False, unique=True, ...)`. -/
def usernameColumn : ColumnSpec := { maxLength := some 20, nullable := false, unique := true }

/-- src/auth/schemes.py: the Username pydantic model declares
`username: str = Field(min_length=1, max_length=20)`; pydantic accepts a
string exactly when its length lies within the declared bounds.  UserCreate,
the registration input model, inherits from Username, so every registration
input passes this validation. -/
def validUsername (username : String) : Bool :=
  1 ≤ username.length && username.length ≤ 20

/-! ## Admin panel view (src/admin/models.py) -/

/-- The sqladmin ModelView permission flags a view class sets. -/
structure ModelViewFlags where
  can_create : Bool
  can_edit : Bool
  can_delete : Bool
  deriving Repr, DecidableEq

/-- src/admin/models.py UserAdmin: can_create = False, can_edit = False,
can_delete = True. -/
def UserAdmin : ModelViewFlags := { can_create := false, can_edit := false, can_delete := true }

/-- The mutations an admin-panel model view can perform on records. -/
inductive AdminMutation where
  | create
  | edit
  | delete
  deriving Repr, DecidableEq

/-- Whether a view's flags enable a given mutation. -/
def mutationEnabled (v : ModelViewFlags) : AdminMutation → Bool
  | .create => v.can_create
  | .edit => v.can_edit
  | .delete => v.can_delete

/-! ## Application HTTP surface (src/main.py, src/admin/router.py, src/auth/templates.py) -/

/-- A path registered on the application: a single route, or a sub-application
mounted at a path (serving that path and everything below it). -/
inductive Registration where
  | route (path : String)
  | mount (path : String)
  deriving Repr, DecidableEq

/-- `app.include_router(router, prefix=pre)`: each route path of the router is
registered under the prefix. -/
def includeRouter (pre : String) (paths : List String) : List Registration :=
  paths.map (fun p => Registration.route (pre ++ p))

/-- Modelled from the spec: fastapi_users_modul.get_auth_router is third-party
(fastapi-users) code not in the repository; the spec lists its surface under
the /auth/jwt prefix as /auth/jwt/login and /auth/jwt/logout. -/
def authRouterPaths : List String := ["/login", "/logout"]

/-- Modelled from the spec: fastapi_users_modul.get_register_router is
third-party code; the spec lists its surface under the /auth prefix as
/auth/register. -/
def registerRouterPaths : List String := ["/register"]

/-- src/admin/router.py: admin_router has prefix "/auth" and one GET route
'/protected'. -/
def adminRouterPaths : List String := ["/protected"]

/-- src/auth/templates.py: auth_templates has no prefix and the GET routes
'/login', '/register' and '/'. -/
def templateRouterPaths : List String := ["/login", "/register", "/"]

/-- src/main.py create_app (lines 91-103 of the route registration part):
the static-files mount at '/static', the auth backend router at /auth/jwt,
the register router at /auth, admin_router, and auth_templates, in source
order. -/
def create_app_registrations : List Registration :=
  [Registration.mount "/static"]
    ++ includeRouter "/auth/jwt" authRouterPaths
    ++ includeRouter "/auth" registerRouterPaths
    ++ includeRouter "/auth" adminRouterPaths
    ++ includeRouter "" templateRouterPaths

/-- src/main.py lifespan: `Admin(app, session_manager.engine)` mounts the
sqladmin panel; its base URL is /admin (third-party default, the spec lists
the surface as /admin/*). -/
def lifespanRegistrations : List Registration := [Registration.mount "/admin"]

/-- Everything the application registers: create_app's registrations plus the
admin-panel mount performed in lifespan. -/
def appRegistrations : List Registration :=
  create_app_registrations ++ lifespanRegistrations

/-- The HTTP surface section 6 of the spec lists, written from the spec's
words for comparison with `appRegistrations`: /auth/jwt/login,
/auth/jwt/logout, /auth/register, /auth/protected, /admin/*, /login,
/register, /. -/
def specListedSurface : List Registration :=
  [ Registration.route "/auth/jwt/login", Registration.route "/auth/jwt/logout",
    Registration.route "/auth/register", Registration.route "/auth/protected",
    Registration.mount "/admin",
    Registration.route "/login", Registration.route "/register", Registration.route "/" ]

/-! ## CSRF protection (src/main.py) -/

/-- HTTP methods the CSRF middleware treats as safe (not state-changing). -/
def safeMethods : List String := ["GET", "HEAD", "OPTIONS", "TRACE"]

/-- src/main.py create_app: the always_protect set passed to asgi_csrf. -/
def alwaysProtect : List String :=
  ["/auth/jwt/login", "/auth/jwt/logout", "/auth/register", "/auth/protected"]

/-- Modelled from the spec: the asgi_csrf middleware is third-party code not
present in the repository.  The spec's glossary describes it as "Cross-site
request forgery protection middleware rejecting unauthenticated state-changing
requests lacking a matching token": a request with a non-safe method and no
matching token is rejected; every other request is handed to the wrapped
application. -/
def csrfAllows (method : String) (tokenMatches : Bool) : Bool :=
  if safeMethods.contains method then true else tokenMatches

/-! ## Theorems -/

/-- C1: for every request whose URL path starts with "/admin",
AdminAuthMiddleware.dispatch makes exactly one outbound GET to the internal
auth/protected endpoint under the base URL, forwarding the request's headers
and cookies; a non-200 status yields a JSON response carrying the same status
and the internal response's detail, and the downstream handler is not
invoked; a transport error raises HttpServerException (status 500). -/
theorem admin_auth_dispatch_spec (baseUrl : String) (req : HttpRequest)
    (outbound : OutboundResult) (hadmin : pyStartsWith req.path "/admin" = true) :
    (dispatch baseUrl req outbound).2
        = [⟨baseUrl ++ "auth/protected", req.headers, req.cookies⟩]
    ∧ (∀ status detail, outbound = OutboundResult.response status detail → status ≠ 200 →
        (dispatch baseUrl req outbound).1 = DispatchResult.jsonResponse status detail
        ∧ ∀ r, (dispatch baseUrl req outbound).1 ≠ DispatchResult.downstream r)
    ∧ (outbound = OutboundResult.transportError →
        (dispatch baseUrl req outbound).1 = DispatchResult.raised HttpServerException) := by
  refine ⟨?_, ?_, ?_⟩
  · cases outbound with
    | transportError => simp [dispatch, hadmin]
    | response status detail =>
        by_cases h200 : status = 200 <;> simp [dispatch, hadmin, h200]
  · rintro status detail rfl hne
    exact ⟨by simp [dispatch, hadmin, hne], fun r => by simp [dispatch, hadmin, hne]⟩
  · rintro rfl
    simp [dispatch, hadmin]

/-- C1 witness: the middleware behaviour evaluated on a concrete /admin
request whose auth re-check returns 403. -/
theorem admin_auth_dispatch_spec_witness :
    (dispatch "http://localhost:5000/" ⟨"/admin/user", [("host", "x")], [("access_token", "t")]⟩
        (OutboundResult.response 403 (some "Доступ запрещен"))).2
      = [⟨"http://localhost:5000/auth/protected", [("host", "x")], [("access_token", "t")]⟩]
    ∧ (∀ status detail,
        OutboundResult.response 403 (some "Доступ запрещен") = OutboundResult.response status detail →
        status ≠ 200 →
        (dispatch "http://localhost:5000/" ⟨"/admin/user", [("host", "x")], [("access_token", "t")]⟩
            (OutboundResult.response 403 (some "Доступ запрещен"))).1
          = DispatchResult.jsonResponse status detail
        ∧ ∀ r, (dispatch "http://localhost:5000/" ⟨"/admin/user", [("host", "x")], [("access_token", "t")]⟩
            (OutboundResult.response 403 (some "Доступ запрещен"))).1 ≠ DispatchResult.downstream r)
    ∧ (OutboundResult.response 403 (some "Доступ запрещен") = OutboundResult.transportError →
        (dispatch "http://localhost:5000/" ⟨"/admin/user", [("host", "x")], [("access_token", "t")]⟩
            (OutboundResult.response 403 (some "Доступ запрещен"))).1
          = DispatchResult.raised HttpServerException) :=
  admin_auth_dispatch_spec "http://localhost:5000/"
    ⟨"/admin/user", [("host", "x")], [("access_token", "t")]⟩
    (OutboundResult.response 403 (some "Доступ запрещен")) (by decide)

/-- C9: the middleware issues its outbound auth check exactly for requests
whose path starts with "/admin" (a plain string-prefix test, so /administrator
is included); every other request is handed to call_next unchanged with no
outbound call. -/
theorem admin_auth_frame_spec (baseUrl : String) (req : HttpRequest)
    (outbound : OutboundResult) :
    ((dispatch baseUrl req outbound).2 ≠ [] ↔ pyStartsWith req.path "/admin" = true)
    ∧ (pyStartsWith req.path "/admin" = false →
        dispatch baseUrl req outbound = (DispatchResult.downstream req, [])) := by
  refine ⟨⟨fun h => ?_, fun hs => ?_⟩, fun hs => by simp [dispatch, hs]⟩
  · by_contra hs
    rw [Bool.not_eq_true] at hs
    simp [dispatch, hs] at h
  · cases outbound with
    | transportError => simp [dispatch, hs]
    | response status detail =>
        by_cases h200 : status = 200 <;> simp [dispatch, hs, h200]

/-- C9 witness: a concrete /administrator request is checked (one outbound
call), and a concrete /login request passes through untouched with none. -/
theorem admin_auth_frame_spec_witness :
    (dispatch "b" ⟨"/administrator", [], []⟩ (OutboundResult.response 200 none)).2 ≠ []
    ∧ dispatch "b" ⟨"/login", [], []⟩ (OutboundResult.response 200 none)
        = (DispatchResult.downstream ⟨"/login", [], []⟩, []) :=
  ⟨(admin_auth_frame_spec "b" ⟨"/administrator", [], []⟩ (OutboundResult.response 200 none)).1.mpr (by decide),
   (admin_auth_frame_spec "b" ⟨"/login", [], []⟩ (OutboundResult.response 200 none)).2 (by decide)⟩

/-- C2: for DatabaseSessionManager.session and the connection decorator,
provided the optional isolation-level SET succeeds: a commit event occurs iff
the commit flag is True and the wrapped body returned without exception; an
exception from the body is followed by a rollback and re-raised unchanged;
and in every case the last event is the session close. -/
theorem session_connection_transactions_spec {E A : Type}
    (isolation : Option String) (commitFlag : Bool)
    (setResult : Except E Unit) (body : Except E A) (commitResult : Except E Unit)
    (hset : setResult = Except.ok ()) :
    (DbEvent.commit ∈ (sessionRun isolation commitFlag setResult body commitResult).2
        ↔ commitFlag = true ∧ ∃ a, body = Except.ok a)
    ∧ (∀ e, body = Except.error e →
        (sessionRun isolation commitFlag setResult body commitResult).1 = Except.error e
        ∧ DbEvent.rollback ∈ (sessionRun isolation commitFlag setResult body commitResult).2)
    ∧ (sessionRun isolation commitFlag setResult body commitResult).2.getLast? = some DbEvent.close
    ∧ (DbEvent.commit ∈ (connectionRun isolation commitFlag setResult body commitResult).2
        ↔ commitFlag = true ∧ ∃ a, body = Except.ok a)
    ∧ (∀ e, body = Except.error e →
        (connectionRun isolation commitFlag setResult body commitResult).1 = Except.error e
        ∧ DbEvent.rollback ∈ (connectionRun isolation commitFlag setResult body commitResult).2)
    ∧ (connectionRun isolation commitFlag setResult body commitResult).2.getLast?
        = some DbEvent.close := by
  subst hset
  cases isolation <;> cases body <;> cases commitFlag <;> cases commitResult <;>
    simp [sessionRun, connectionRun]

/-- C2 witness: the session and connection wrappers evaluated with no
isolation level, commit flag set, and a successful body. -/
theorem session_connection_transactions_spec_witness :
    (DbEvent.commit ∈ (@sessionRun Unit Nat none true (Except.ok ()) (Except.ok 7) (Except.ok ())).2
        ↔ true = true ∧ ∃ a, Except.ok 7 = @Except.ok Unit Nat a)
    ∧ (∀ e, @Except.ok Unit Nat 7 = Except.error e →
        (@sessionRun Unit Nat none true (Except.ok ()) (Except.ok 7) (Except.ok ())).1 = Except.error e
        ∧ DbEvent.rollback ∈ (@sessionRun Unit Nat none true (Except.ok ()) (Except.ok 7) (Except.ok ())).2)
    ∧ (@sessionRun Unit Nat none true (Except.ok ()) (Except.ok 7) (Except.ok ())).2.getLast?
        = some DbEvent.close
    ∧ (DbEvent.commit ∈ (@connectionRun Unit Nat none true (Except.ok ()) (Except.ok 7) (Except.ok ())).2
        ↔ true = true ∧ ∃ a, Except.ok 7 = @Except.ok Unit Nat a)
    ∧ (∀ e, @Except.ok Unit Nat 7 = Except.error e →
        (@connectionRun Unit Nat none true (Except.ok ()) (Except.ok 7) (Except.ok ())).1 = Except.error e
        ∧ DbEvent.rollback ∈ (@connectionRun Unit Nat none true (Except.ok ()) (Except.ok 7) (Except.ok ())).2)
    ∧ (@connectionRun Unit Nat none true (Except.ok ()) (Except.ok 7) (Except.ok ())).2.getLast?
        = some DbEvent.close :=
  session_connection_transactions_spec none true (Except.ok ()) (Except.ok 7) (Except.ok ()) rfl

/-- C3: every CRUD operation of BaseManager (add, add_all, find_by_id,
find_one_by, find_all, update_by_id, update_all, delete_by_id, delete_all,
count), when the database call it wraps raises a SQLAlchemyError e, logs an
error line and re-raises exactly e — no retry, no substituted result, no
swallowed error.  For the two-step operations both failure points are
covered; for update_all the database call is reachable only with an empty
filter dict (see the update_all theorems) and the exception is re-raised
through the SQLAlchemyError injection. -/
theorem base_manager_error_passthrough {A : Type} (e : SQLAlchemyError)
    (obj : A) (objs : List A) (found : Option A) (filters : List (String × String)) (n : Nat) :
    BaseManager.add obj (Except.error e) = (Except.error e, [LogEvent.info, LogEvent.error])
    ∧ BaseManager.add_all objs (Except.error e) = (Except.error e, [LogEvent.info, LogEvent.error])
    ∧ @BaseManager.find_by_id A (Except.error e) = (Except.error e, [LogEvent.error])
    ∧ @BaseManager.find_one_by A filters (Except.error e)
        = (Except.error e, [LogEvent.info, LogEvent.error])
    ∧ @BaseManager.find_all A filters (Except.error e)
        = (Except.error e, [LogEvent.info, LogEvent.error])
    ∧ @BaseManager.update_by_id A (Except.error e) (Except.ok ())
        = (Except.error e, [LogEvent.info, LogEvent.error])
    ∧ @BaseManager.update_by_id A (Except.ok found) (Except.error e)
        = (Except.error e, [LogEvent.info, LogEvent.error])
    ∧ BaseManager.update_all [] (Except.error e) (Except.ok ())
        = (Except.error (PyError.sql e), [DbAction.execute], [LogEvent.info, LogEvent.error])
    ∧ BaseManager.update_all [] (Except.ok n) (Except.error e)
        = (Except.error (PyError.sql e), [DbAction.execute, DbAction.flush],
            [LogEvent.info, LogEvent.error])
    ∧ @BaseManager.delete_by_id A (Except.error e) (Except.ok ())
        = (Except.error e, [LogEvent.info, LogEvent.error])
    ∧ @BaseManager.delete_by_id A (Except.ok found) (Except.error e)
        = (Except.error e, [LogEvent.info, LogEvent.error])
    ∧ BaseManager.delete_all filters (Except.error e) (Except.ok ())
        = (Except.error e, [LogEvent.info, LogEvent.error])
    ∧ BaseManager.delete_all filters (Except.ok n) (Except.error e)
        = (Except.error e, [LogEvent.info, LogEvent.error])
    ∧ BaseManager.count filters (Except.error e)
        = (Except.error e, [LogEvent.info, LogEvent.error]) :=
  ⟨rfl, rfl, rfl, rfl, rfl, rfl, rfl, rfl, rfl, rfl, rfl, rfl, rfl, rfl⟩

/-- C8: a call to BaseManager.update_all with a non-empty filters model
raises a TypeError at query construction (where() accepts only positional
expressions), so no statement is sent to the database: the action trace is
empty whatever the database oracles would have answered. -/
theorem update_all_nonempty_filters_typeerror
    (filters : List (String × String)) (hne : filters ≠ [])
    (execResult : Except SQLAlchemyError Nat) (flushResult : Except SQLAlchemyError Unit) :
    BaseManager.update_all filters execResult flushResult
      = (Except.error (PyError.typeError "where() got an unexpected keyword argument"),
          [], [LogEvent.info]) := by
  have hf : filters.isEmpty = false := by
    cases filters with
    | nil => exact absurd rfl hne
    | cons a l => rfl
  simp [BaseManager.update_all, BaseManager.whereKwargs, hf]

/-- C8 witness: update_all on a concrete one-field filter raises the
TypeError and executes nothing. -/
theorem update_all_nonempty_filters_typeerror_witness :
    BaseManager.update_all [("username", "bob")] (Except.ok 3) (Except.ok ())
      = (Except.error (PyError.typeError "where() got an unexpected keyword argument"),
          [], [LogEvent.info]) :=
  update_all_nonempty_filters_typeerror [("username", "bob")]
    (List.cons_ne_nil _ _) (Except.ok 3) (Except.ok ())

/-- C10: BaseManager.find_by_id returns None (without raising) when the
lookup finds no row, and its outcome is an exception exactly when the
underlying session.get raised a SQLAlchemyError. -/
theorem find_by_id_none_spec {A : Type} (getResult : Except SQLAlchemyError (Option A)) :
    (getResult = Except.ok none → (BaseManager.find_by_id getResult).1 = Except.ok none)
    ∧ (∀ e, (BaseManager.find_by_id getResult).1 = Except.error e ↔ getResult = Except.error e) := by
  cases getResult <;> simp [BaseManager.find_by_id]

/-- C10 witness: find_by_id on a lookup that found no row returns None. -/
theorem find_by_id_none_spec_witness :
    (BaseManager.find_by_id (@Except.ok SQLAlchemyError (Option Nat) none)).1
      = Except.ok none :=
  (find_by_id_none_spec (@Except.ok SQLAlchemyError (Option Nat) none)).1 rfl

/-- C4: the User.username ORM column is declared unique, non-nullable and
20 characters long, and the registration scheme's validation accepts exactly
usernames of length between 1 and 20, so every persisted username respects
the declared bound. -/
theorem user_username_constraints :
    usernameColumn.unique = true
    ∧ usernameColumn.nullable = false
    ∧ usernameColumn.maxLength = some 20
    ∧ ∀ s : String, validUsername s = true ↔ (1 ≤ s.length ∧ s.length ≤ 20) := by
  refine ⟨rfl, rfl, rfl, fun s => ?_⟩
  simp [validUsername]

/-- C5 counterexample: create_app also mounts the static-files application at
/static (src/main.py), which the spec's surface list does not contain, so the
registered surface is not exactly the listed one. -/
theorem registered_surface_has_static_mount :
    Registration.mount "/static" ∈ appRegistrations
    ∧ Registration.mount "/static" ∉ specListedSurface := by
  constructor <;> decide

/-- C5 amended: the application registers exactly the spec's listed surface
plus the static-files mount at /static. -/
theorem registered_surface_amended :
    appRegistrations.Perm (Registration.mount "/static" :: specListedSurface) := by
  decide

/-- C6: the admin panel's user view enables deletion and disables in-panel
creation and editing, so deletion is the only mutation the panel performs on
user records. -/
theorem user_admin_flags :
    UserAdmin.can_delete = true
    ∧ UserAdmin.can_create = false
    ∧ UserAdmin.can_edit = false
    ∧ ∀ m : AdminMutation, mutationEnabled UserAdmin m = true ↔ m = AdminMutation.delete := by
  refine ⟨rfl, rfl, rfl, fun m => ?_⟩
  cases m <;> simp [mutationEnabled, UserAdmin]

/-- C7: the CSRF middleware wrapping the application rejects every
state-changing (non-safe-method) request lacking a matching token, and the
four auth paths are in the always_protect set passed to it. -/
theorem csrf_protection_spec (method : String) (tokenMatches : Bool)
    (hnotsafe : safeMethods.contains method = false) (hlacks : tokenMatches = false) :
    csrfAllows method tokenMatches = false
    ∧ "/auth/jwt/login" ∈ alwaysProtect
    ∧ "/auth/jwt/logout" ∈ alwaysProtect
    ∧ "/auth/register" ∈ alwaysProtect
    ∧ "/auth/protected" ∈ alwaysProtect := by
  refine ⟨?_, by decide, by decide, by decide, by decide⟩
  have hmem : method ∉ safeMethods := by simpa using hnotsafe
  simp [csrfAllows, hmem, hlacks]

/-- C7 witness: a POST with no matching token is rejected, and the four auth
paths are always protected. -/
theorem csrf_protection_spec_witness :
    csrfAllows "POST" false = false
    ∧ "/auth/jwt/login" ∈ alwaysProtect
    ∧ "/auth/jwt/logout" ∈ alwaysProtect
    ∧ "/auth/register" ∈ alwaysProtect
    ∧ "/auth/protected" ∈ alwaysProtect :=
  csrf_protection_spec "POST" false (by decide) rfl

end FastWeb
